import Mathlib

/-!
Shallow embedding of `cased_tf` (files `src/cased_tf/__init__.py`, `src/setup.py`).

The program is a CLI pipeline: load a YAML config, validate a Terraform
working directory, run `terraform show -json`, POST the parsed output to an
analysis API (or print the would-be request in dry-run mode), and pretty-print
the returned drift report.

Modelling conventions:
  * Python strings are Lean `String`; Python `None`-or-string values are
    `Option String`; Python truthiness of such a value (`if not x`) is
    `truthy` below (None and "" are falsy).
  * Each `click.echo` / `click.secho` call contributes one element to a
    `List String` of output lines (color/bold keyword arguments are
    presentation only and are not modelled).
  * External effects (the filesystem, the `terraform` subprocess, `json.loads`,
    the HTTP POST) are passed in as explicit function arguments; the embedded
    functions are otherwise the straight-line translation of the source.
-/

deriving instance DecidableEq for Except

namespace CasedTf

/-- Python truthiness of an optional string: `None` and `""` are falsy. -/
def truthy : Option String → Bool
  | none => false
  | some s => !(s == "")

/-- Python `a or b` on optional strings: first operand if truthy, else second. -/
def pyOr (a b : Option String) : Option String :=
  if truthy a then a else b

/-- Click's flag/envvar layering: the flag value if the flag was passed on the
command line (whatever it is), else the environment variable value. -/
def optOr (a b : Option String) : Option String :=
  match a with
  | some v => some v
  | none => b

/-- Bool substring occurrence test on character lists. -/
def hasSubstrL (pat : List Char) : List Char → Bool
  | [] => pat.isEmpty
  | c :: rest => pat.isPrefixOf (c :: rest) || hasSubstrL pat rest

/-! ## `load_config` (source lines 11-36)

The YAML mapping is modelled by the keys the program ever reads. -/

/-- The configuration mapping read from a YAML file (keys the program uses). -/
structure Config where
  project : Option String := none
  environment : Option String := none
  api_key : Option String := none
  api_url : Option String := none
  working_dir : Option String := none
deriving DecidableEq, Repr

/-- The empty configuration (`{}` in the source). -/
def Config.empty : Config := {}

/-- The `default_locations` list from `load_config`, with `os.path.expanduser("~")`
made explicit as the `home` argument. -/
def default_locations (home : String) : List String :=
  [home ++ "/.config/cased/config.yml", home ++ "/.cased/config.yml", ".cased.yml"]

/-- Embedding of `load_config(config_file)`.

`fsExists` models `os.path.exists`; `fsParse p` models opening path `p` and
running `yaml.safe_load` on it (`none` = the open/parse raised, `some c` = the
parsed mapping, with `yaml.safe_load(f) or {}` already folded into `c`).
Returns `Except`: `.error` models `raise click.UsageError(...)`. -/
def load_config (home : String) (fsExists : String → Bool)
    (fsParse : String → Option Config) (config_file : Option String) :
    Except String Config :=
  let cf : Option String :=
    if truthy config_file then config_file
    else (default_locations home).find? fsExists
  match cf with
  | none => .ok Config.empty
  | some p =>
    if fsExists p then
      match fsParse p with
      | some config => .ok config
      | none => .error "Failed to load config file"
    else .ok Config.empty

/-! ## `TerraformAnalyzer.validate_terraform_directory` (source lines 43-55) -/

/-- Python `s.endswith(suffix)`. -/
def pyEndsWith (s suffix : String) : Bool :=
  suffix.data.isSuffixOf s.data

/-- The observable state of the working directory:
`files` is `os.listdir(working_dir)`, `has_dot_terraform` is
`os.path.exists(os.path.join(working_dir, ".terraform"))`. -/
structure DirState where
  working_dir : String
  files : List String
  has_dot_terraform : Bool
deriving DecidableEq, Repr

/-- Embedding of `TerraformAnalyzer.validate_terraform_directory`; `.error` models
`raise click.UsageError(...)`. -/
def validate_terraform_directory (d : DirState) : Except String Unit :=
  let tf_files := d.files.filter (fun f => pyEndsWith f ".tf")
  if tf_files.isEmpty then
    .error ("No .tf files found in " ++ d.working_dir ++ ". " ++
      "Please run this command from a directory containing Terraform files " ++
      "or specify --working-dir")
  else if !d.has_dot_terraform then
    .error "Terraform not initialized. Please run 'terraform init' first."
  else .ok ()

/-! ## `TerraformAnalyzer.get_show_output` (source lines 57-99) -/

/-- JSON values, for documents passed through the program opaquely. -/
inductive Json where
  | null
  | bool (b : Bool)
  | num (n : Int)
  | str (s : String)
  | arr (elems : List Json)
  | obj (fields : List (String × Json))

/-- Result of `subprocess.run(["terraform", "show", "-json"], ...)`. -/
structure ProcResult where
  returncode : Int
  stdout : String
  stderr : String
deriving DecidableEq, Repr

/-- The two ways `get_show_output` fails: a `click.UsageError` it raises
itself, or a dynamic-type exception (`TypeError` / `AttributeError` /
`KeyError`) escaping it uncaught from the resource-summary block, whose
enclosing `try` catches only `json.JSONDecodeError`. -/
inductive PyErr where
  | usage (msg : String)
  | uncaught (msg : String)
deriving DecidableEq, Repr

/-- True iff the result is a raised `click.UsageError`. -/
def isUsageError {α : Type} : Except PyErr α → Bool
  | .error (.usage _) => true
  | _ => false

/-! Python dynamic operations on parsed-JSON values, each returning
`.error` exactly for the operand shapes on which CPython raises; the
message string names the Python exception class. -/

/-- Python `x == key` for a string `key` against a JSON-derived value:
true only for the equal string (None, booleans, numbers and containers
never compare equal to a str). -/
def isStrEq (key : String) : Json → Bool
  | .str t => t == key
  | _ => false

/-- Python `key in j`: key lookup on dicts, substring test on strings,
element equality on lists; `TypeError` on None/bool/number. -/
def pyContains (key : String) : Json → Except String Bool
  | .obj fields => .ok (fields.any (fun kv => kv.1 == key))
  | .str s => .ok (hasSubstrL key.data s.data)
  | .arr elems => .ok (elems.any (isStrEq key))
  | _ => .error "TypeError"

/-- Python `j[key]` for a string key: dict lookup (`KeyError` when the key
is absent); `TypeError` on every other shape (string and list indices must
be integers, the rest is not subscriptable). -/
def pyIndex (j : Json) (key : String) : Except String Json :=
  match j with
  | .obj fields =>
    match fields.find? (fun kv => kv.1 == key) with
    | some kv => .ok kv.2
    | none => .error "KeyError"
  | _ => .error "TypeError"

/-- Python `j.get(key, default)`: only dicts have `.get`
(`AttributeError` otherwise). -/
def pyGet (j : Json) (key : String) (default : Json) : Except String Json :=
  match j with
  | .obj fields =>
    match fields.find? (fun kv => kv.1 == key) with
    | some kv => .ok kv.2
    | none => .ok default
  | _ => .error "AttributeError"

/-- Python `len(j)`: strings, lists and dicts are sized; `TypeError`
otherwise. -/
def pyLen : Json → Except String Nat
  | .str s => .ok s.length
  | .arr elems => .ok elems.length
  | .obj fields => .ok fields.length
  | _ => .error "TypeError"

/-- Python `for x in j`: the iterated sequence — list elements, the
characters of a string (as 1-character strings), the keys of a dict;
`TypeError` on None/bool/number. -/
def pyIter : Json → Except String (List Json)
  | .arr elems => .ok elems
  | .str s => .ok (s.data.map (fun c => Json.str (String.mk [c])))
  | .obj fields => .ok (fields.map (fun kv => Json.str kv.1))
  | _ => .error "TypeError"

/-- Python `j.startswith(pre)`: only strings have `.startswith`
(`AttributeError` otherwise). -/
def pyStartsWith (j : Json) (pre : String) : Except String Bool :=
  match j with
  | .str s => .ok (pre.data.isPrefixOf s.data)
  | _ => .error "AttributeError"

/-- The body of the `for r in resources:` loop of `print_module_resources`
(source lines 81-86): every raising operation in evaluation order —
`r.get("type", "")`, `.startswith("aws_")` on its result, and for matching
resources the f-string accesses `r['type']`, `r.get('name')` and
`r.get('values', {}).get('id', 'no id')`. The echoed text itself is
presentation and carries no failure of its own. -/
def walkResource (r : Json) : Except String Unit := do
  let t ← pyGet r "type" (Json.str "")
  let b ← pyStartsWith t "aws_"
  if b then
    let _ ← pyIndex r "type"
    let _ ← pyGet r "name" Json.null
    let v ← pyGet r "values" (Json.obj [])
    let _ ← pyGet v "id" (Json.str "no id")
    pure ()
  else
    pure ()

/-- The `for r in resources:` loop over the iterated sequence. -/
def walkResources : List Json → Except String Unit
  | [] => pure ()
  | r :: rs => do
    walkResource r
    walkResources rs

/-- The `for child in module_data.get("child_modules", []):` loop (source
lines 89-91): per child, `child.get('address', 'unknown')` for the echo,
then the recursive `print_module_resources(child, ...)` call, passed in
as `f`. -/
def walkChildrenAux (f : Json → Except String Unit) :
    List Json → Except String Unit
  | [] => pure ()
  | child :: cs => do
    let _ ← pyGet child "address" (Json.str "unknown")
    f child
    walkChildrenAux f cs

/-- `print_module_resources(module_data, prefix)` (source lines 78-91),
keeping every operation that can raise, in evaluation order:
`module_data.get("resources", [])`, `len(resources)` (inside the first
echo's f-string), the iteration over `resources`, the per-resource
accesses, then `module_data.get("child_modules", [])`, its iteration, and
the recursion into each child. The recursion is fuel-structured (one unit
per nesting level) so it evaluates by kernel reduction; `summaryWalk`
passes fuel exceeding any possible nesting depth of the finite document,
making the fuel-exhausted branch unreachable (CPython's own interpreter
recursion limit is not modelled). The `prefix` parameter only shapes the
echoed text and is dropped. -/
def walkModule : Nat → Json → Except String Unit
  | 0, _ => .error "RecursionError"
  | fuel + 1, module_data => do
    let resources ← pyGet module_data "resources" (Json.arr [])
    let _ ← pyLen resources
    let rs ← pyIter resources
    walkResources rs
    let children ← pyGet module_data "child_modules" (Json.arr [])
    let cs ← pyIter children
    walkChildrenAux (walkModule fuel) cs

/-- The resource-summary block run on the parsed document before
`return output` (source lines 73-93): `if "values" in output:`, then
`if "root_module" in output["values"]:`, then
`print_module_resources(output["values"]["root_module"])` (the indexing
`output["values"]` is evaluated once for the test and again for the call,
as in the source). Any `.error` here escapes `get_show_output` uncaught.
`fuel` bounds the module-recursion depth; `get_show_output` passes the
stdout length plus one, which exceeds the nesting depth of any document
`json.loads` can produce from that stdout, so `walkModule`'s
fuel-exhausted branch is unreachable. -/
def summaryWalk (fuel : Nat) (output : Json) : Except String Unit := do
  let b ← pyContains "values" output
  if b then
    let v ← pyIndex output "values"
    let b2 ← pyContains "root_module" v
    if b2 then
      let v2 ← pyIndex output "values"
      let m ← pyIndex v2 "root_module"
      walkModule fuel m
    else
      pure ()
  else
    pure ()

/-- Embedding of `TerraformAnalyzer.get_show_output`.

`proc` is the result of the `terraform show -json` subprocess and
`jsonLoads` models `json.loads` (`none` = `json.JSONDecodeError`).
Behaviour: validate the directory, fail on non-zero exit with the
subprocess stderr, fail on unparseable stdout with a 200-character snippet
(both `click.UsageError`s, `.usage`), then run the resource-summary block
over the parsed document — whose dynamic-type errors escape uncaught
(`.uncaught`) because the `except` clause catches only
`json.JSONDecodeError` — and finally return the document. -/
def get_show_output (d : DirState) (proc : ProcResult)
    (jsonLoads : String → Option Json) : Except PyErr Json :=
  match validate_terraform_directory d with
  | .error e => .error (.usage e)
  | .ok () =>
    if proc.returncode != 0 then
      .error (.usage ("terraform show failed:\n" ++ proc.stderr))
    else
      match jsonLoads proc.stdout with
      | some output =>
        match summaryWalk (proc.stdout.length + 1) output with
        | .ok () => .ok output
        | .error m => .error (.uncaught m)
      | none =>
        .error (.usage ("Failed to parse terraform show output as JSON. " ++
          "Output: " ++ proc.stdout.take 200 ++ "..."))

/-! ## `CasedAPI` (source lines 102-138) -/

/-- Python `s.rstrip("/")` at the character-list level. -/
def rstripSlashesL (l : List Char) : List Char :=
  (l.reverse.dropWhile (fun c => c == '/')).reverse

/-- Python `s.replace(pat, "")`: remove every occurrence of `pat`, scanning
left to right, non-overlapping. Structural recursion on a fuel argument
(one unit per character) so the function evaluates by kernel reduction;
`removeAll` supplies enough fuel. -/
def removeAllF (pat : List Char) : Nat → List Char → List Char
  | _, [] => []
  | 0, l => l
  | fuel + 1, c :: rest =>
    if pat ≠ [] ∧ pat.isPrefixOf (c :: rest) then
      removeAllF pat fuel (rest.drop (pat.length - 1))
    else
      c :: removeAllF pat fuel rest

/-- Python `s.replace(pat, "")` on character lists. -/
def removeAll (pat s : List Char) : List Char :=
  removeAllF pat s.length s

/-- Modelled from the spec (§4.3): removal of a pre-existing API-version
*path segment* `/api/v1` — an occurrence counts only when it is followed by
`/` or the end of the string, i.e. when it forms whole path segments.
Fuel-structured like `removeAllF`; `stripApiV1Segment` supplies the fuel. -/
def stripSegF : Nat → List Char → List Char
  | _, [] => []
  | 0, l => l
  | fuel + 1, c :: rest =>
    if "/api/v1".data.isPrefixOf (c :: rest) ∧
        (rest.drop 6 = [] ∨ (rest.drop 6).head? = some '/') then
      stripSegF fuel (rest.drop 6)
    else c :: stripSegF fuel rest

/-- Modelled from the spec (§4.3): strip every `/api/v1` path segment. -/
def stripApiV1Segment (l : List Char) : List Char :=
  stripSegF l.length l

/-- Modelled from the spec (§4.3, §6): the analysis endpoint the spec
describes — the base URL with any pre-existing `/api/v1` path segment and
trailing slashes stripped, then `/api/v1/projects/{project}/infra/local`
appended. -/
def specTargetUrl (base_url project : String) : String :=
  String.mk (rstripSlashesL (stripApiV1Segment base_url.data)) ++
    "/api/v1/projects/" ++ project ++ "/infra/local"

/-- The state of a `CasedAPI` instance after `__init__`. -/
structure CasedAPI where
  api_key : String
  base_url : String
deriving DecidableEq, Repr

/-- Embedding of `CasedAPI.__init__(api_key, base_url)`: stores the key and normalises the
base URL with `base_url.rstrip("/").replace("/api/v1", "")`. -/
def CasedAPI.make (api_key : String)
    (base_url : String := "https://app.cased.com") : CasedAPI :=
  ⟨api_key, String.mk (removeAll "/api/v1".data (rstripSlashesL base_url.data))⟩

/-- The request payload `{"terraform_show_output": ..., "environment": ...}`. -/
def payloadOf (show_output : Json) (environment : String) : Json :=
  Json.obj [("terraform_show_output", show_output), ("environment", Json.str environment)]

/-- An outbound `requests.post` call: target URL, JSON body and headers. -/
structure HttpPost where
  url : String
  payload : Json
  authorization : String
  content_type : String

/-! Drift-report records (the shape `print_drift_report` consumes). -/

/-- One entry of a resource's `drift` sequence. -/
structure Change where
  field : String
  expected : String
  actual : String
deriving DecidableEq, Repr

/-- One resource record of the drift report. `drift` is the value of the
optional `"drift"` key (`[]` when absent — `resource.get("drift")` treats
both the same). -/
structure Resource where
  service_name : String
  service_type : String
  name : String
  id : String
  status : String
  drift : List Change := []
deriving DecidableEq, Repr

/-- A drift report dict. Each bucket key may be absent (`none`) or present
with a sequence; `has_other_keys` records whether the dict carries any
further keys (this affects only Python's emptiness test `if not report`). -/
structure Report where
  managed_resources : Option (List Resource) := none
  unmanaged_resources : Option (List Resource) := none
  missing_resources : Option (List Resource) := none
  has_other_keys : Bool := false
deriving DecidableEq, Repr

/-- The empty dict `{}` — what `analyze_terraform` returns in dry-run mode. -/
def Report.emptyDict : Report := {}

/-- Python `not report`: true iff the dict has no keys at all. -/
def Report.isFalsy (r : Report) : Bool :=
  r.managed_resources.isNone && r.unmanaged_resources.isNone &&
    r.missing_resources.isNone && !r.has_other_keys

/-- Embedding of `CasedAPI.analyze_terraform`: returns the echoed lines, the HTTP POST
issued (if any), and the resulting report. `dumps` models
`json.dumps(payload, indent=2)`; `httpPost` models a successful
`requests.post` + `raise_for_status()` + `.json()` round trip on the live
path (transport/HTTP errors propagate out of the program and carry no
return value). -/
def CasedAPI.analyze_terraform (api : CasedAPI) (project environment : String)
    (show_output : Json) (dry_run : Bool)
    (dumps : Json → String) (httpPost : HttpPost → Report) :
    List String × Option HttpPost × Report :=
  let url := api.base_url ++ "/api/v1/projects/" ++ project ++ "/infra/local"
  let payload := payloadOf show_output environment
  if dry_run then
    (["\n=== Dry Run - API Request Details ===\n",
      "URL: " ++ url,
      "\nHeaders:",
      "  Authorization: Bearer [REDACTED]",
      "  Content-Type: application/json",
      "\nPayload:",
      dumps payload,
      "\nNo API call will be made in dry-run mode."],
     none, Report.emptyDict)
  else
    let req : HttpPost := ⟨url, payload, "Bearer " ++ api.api_key, "application/json"⟩
    ([], some req, httpPost req)

/-- The URL of the HTTP POST issued by an `analyze_terraform` run, if any. -/
def requestUrl (res : List String × Option HttpPost × Report) : Option String :=
  res.2.1.map HttpPost.url

/-! ## `print_drift_report` (source lines 141-201)

Exact output strings are kept byte-for-byte; the source file's emoji
literals are mojibake sequences (e.g. `âœ…` before
" No resources found") and are reproduced as such. -/

/-- The report heading echoed for every non-empty report (source line 146). -/
def reportHeader : String := "\n=== Infrastructure Drift Report ===\n"

/-- The success line for the all-empty case (source line 155). -/
def successLine : String := "âœ… No resources found"

/-- The managed-resources section heading (source line 161). -/
def managedHeader : String := "\nðŸ” Managed Resources:"

/-- The unmanaged-resources section heading (source line 182). -/
def unmanagedHeader : String := "\nâš ï¸  Unmanaged Resources:"

/-- The missing-resources section heading (source line 194). -/
def missingHeader : String := "\nâŒ Missing Resources:"

/-- The per-resource bullet line (the same f-string at source lines
165, 185 and 197). -/
def bulletLine (r : Resource) : String :=
  "â€¢ " ++ (r.service_name ++ (" - " ++ (r.name ++ (" (" ++ (r.id ++ ")")))))

/-- The `Type:` detail line (source lines 168, 188 and 200). -/
def typeLine (r : Resource) : String :=
  "  Type: " ++ r.service_type

/-- The `Status:` detail line (source line 169). -/
def statusLine (r : Resource) : String :=
  "  Status: " ++ r.status

/-- One field-drift line inside a `Changes:` block (source lines 173-176). -/
def changeLine (change : Change) : String :=
  "    - " ++ (change.field ++ (": expected " ++ (change.expected ++
    (", got " ++ change.actual))))

/-- The lines printed for one managed resource (source lines 162-177).
The `status_color` computation (green iff the status equals "synced")
affects only the color of the bullet line, not its text. -/
def printManagedResource (r : Resource) : List String :=
  bulletLine r ::
  typeLine r ::
  statusLine r ::
  ((if r.drift.isEmpty then [] else
      "  Changes:" :: r.drift.map changeLine) ++ [""])

/-- The lines printed for one unmanaged resource (source lines 183-189). -/
def printUnmanagedResource (r : Resource) : List String :=
  [bulletLine r, typeLine r, ""]

/-- The lines printed for one missing resource (source lines 195-201). -/
def printMissingResource (r : Resource) : List String :=
  [bulletLine r, typeLine r, ""]

/-- The concatenation `all_resources` used only for the all-empty test
(source lines 148-152). -/
def allResources (report : Report) : List Resource :=
  report.managed_resources.getD [] ++ report.unmanaged_resources.getD [] ++
    report.missing_resources.getD []

/-- The `# Print managed resources` paragraph (source lines 158-177):
nothing when the bucket is absent or empty, else heading plus blocks. -/
def managedSection (report : Report) : List String :=
  if (report.managed_resources.getD []).isEmpty then [] else
    managedHeader :: (report.managed_resources.getD []).flatMap printManagedResource

/-- The `# Print unmanaged resources` paragraph (source lines 179-189). -/
def unmanagedSection (report : Report) : List String :=
  if (report.unmanaged_resources.getD []).isEmpty then [] else
    unmanagedHeader :: (report.unmanaged_resources.getD []).flatMap printUnmanagedResource

/-- The `# Print missing resources` paragraph (source lines 191-201). -/
def missingSection (report : Report) : List String :=
  if (report.missing_resources.getD []).isEmpty then [] else
    missingHeader :: (report.missing_resources.getD []).flatMap printMissingResource

/-- Embedding of `print_drift_report(report)`: the list of echoed lines
(source lines 141-201). -/
def print_drift_report (report : Report) : List String :=
  if report.isFalsy then []
  else
    reportHeader ::
    (if (allResources report).isEmpty then
       [successLine]
     else
       managedSection report ++ unmanagedSection report ++ missingSection report)

/-! ## `analyze` configuration resolution (source lines 253-295)

Click first layers flags over environment variables (per-option `envvar=`)
and the declared default; the body of `analyze` then applies its own
fallbacks to the loaded config file. -/

/-- The flags passed on the command line (`none` = flag not given). -/
structure CliArgs where
  project : Option String := none
  environment : Option String := none
  api_key : Option String := none
  api_url : Option String := none
  dry_run : Bool := false
  config : Option String := none
  localFlag : Bool := false
  working_dir : Option String := none
deriving DecidableEq, Repr

/-- The process environment variables the program reads. -/
structure EnvVars where
  cased_api_key : Option String := none
  cased_api_url : Option String := none
deriving DecidableEq, Repr

/-- The configuration values `analyze` has settled on once all precedence
rules have run (just before the API client is constructed). -/
structure Resolved where
  api_key : Option String
  client_key : String
  api_url : String
  project : Option String
  environment : Option String
deriving DecidableEq, Repr

/-- The resolution of `api_key` (click `envvar="CASED_API_KEY"` layering,
then source lines 269-270). -/
def resolve_api_key (flag : Option String) (env : EnvVars) (cfg : Config) :
    Option String :=
  let api_key0 := optOr flag env.cased_api_key
  if truthy api_key0 then api_key0 else pyOr env.cased_api_key cfg.api_key

/-- The resolution of `api_url` (click `envvar="CASED_API_URL"` and default
layering, then source lines 272-275). -/
def resolve_api_url (flag : Option String) (env : EnvVars) (cfg : Config)
    (localFlag : Bool) : String :=
  let api_url0 := (optOr flag env.cased_api_url).getD "https://app.cased.com"
  if localFlag then "http://localhost:3000"
  else if api_url0 == "https://app.cased.com" then
    if truthy env.cased_api_url then env.cased_api_url.getD ""
    else cfg.api_url.getD api_url0
  else api_url0

/-- The values `analyze` computes before its presence checks run. -/
def resolved_values (args : CliArgs) (env : EnvVars) (cfg : Config) : Resolved :=
  let api_key1 := resolve_api_key args.api_key env cfg
  { api_key := api_key1
    client_key := (pyOr api_key1 (some "dry-run-key")).getD ""
    api_url := resolve_api_url args.api_url env cfg args.localFlag
    project := pyOr args.project cfg.project
    environment := pyOr args.environment cfg.environment }

/-- The configuration-resolution prefix of `analyze` (source lines 268-295),
with the already-loaded config passed in: precedence merging followed by the
three presence checks, in source order. `.error` models
`raise click.UsageError(...)`. -/
def resolve (args : CliArgs) (env : EnvVars) (cfg : Config) :
    Except String Resolved :=
  let r := resolved_values args env cfg
  if !truthy r.project then
    .error "Project must be specified via --project or config file"
  else if !truthy r.environment then
    .error "Environment must be specified via --environment or config file"
  else if !args.dry_run && !truthy r.api_key then
    .error "--api-key is required unless using --dry-run"
  else .ok r

/-! ## Generic helper lemmas -/

theorem data_head_append (pre s : String) (h : pre.data ≠ []) :
    (pre ++ s).data.head? = pre.data.head? := by
  rw [String.data_append]
  exact List.head?_append_of_ne_nil _ h

theorem data_getElem_append (pre s : String) (i : Nat) (h : i < pre.data.length) :
    (pre ++ s).data[i]? = pre.data[i]? := by
  rw [String.data_append]
  exact List.getElem?_append_left h

theorem ne_of_data_head {s t : String} (h : s.data.head? ≠ t.data.head?) : s ≠ t :=
  fun e => h (by rw [e])

/-! ## C4: dry-run issues no POST, returns the empty report; the printer
is a no-op on the empty report -/

/-- C4: for every input, `analyze_terraform` with `dry_run = True` issues no
HTTP POST and returns the empty report, and `print_drift_report` applied to
the empty report prints nothing. -/
theorem dry_run_no_post_empty_result (api : CasedAPI)
    (project environment : String) (show_output : Json)
    (dumps : Json → String) (httpPost : HttpPost → Report) :
    (api.analyze_terraform project environment show_output true dumps httpPost).2.1 = none ∧
    (api.analyze_terraform project environment show_output true dumps httpPost).2.2 =
      Report.emptyDict ∧
    print_drift_report Report.emptyDict = [] :=
  ⟨rfl, rfl, by decide⟩

/-! ## C8: `validate_terraform_directory` error cases -/

/-- C8: a directory with zero `.tf` files always fails with the usage error,
regardless of other state; a directory with `.tf` files but no `.terraform`
entry fails with the error naming `terraform init`. -/
theorem validate_terraform_directory_errors (d : DirState) :
    ((∀ f ∈ d.files, pyEndsWith f ".tf" = false) →
      validate_terraform_directory d =
        .error ("No .tf files found in " ++ d.working_dir ++ ". " ++
          "Please run this command from a directory containing Terraform files " ++
          "or specify --working-dir")) ∧
    ((∃ f ∈ d.files, pyEndsWith f ".tf" = true) → d.has_dot_terraform = false →
      validate_terraform_directory d =
        .error "Terraform not initialized. Please run 'terraform init' first.") := by
  constructor
  · intro h
    have hnil : d.files.filter (fun f => pyEndsWith f ".tf") = [] := by
      refine List.filter_eq_nil_iff.mpr ?_
      intro a ha
      simp [h a ha]
    unfold validate_terraform_directory
    simp [hnil]
  · rintro ⟨f, hf, hend⟩ hdt
    have hmem : f ∈ d.files.filter (fun f => pyEndsWith f ".tf") :=
      List.mem_filter.mpr ⟨hf, by simp [hend]⟩
    have hne : (d.files.filter (fun f => pyEndsWith f ".tf")).isEmpty = false := by
      rcases hq : d.files.filter (fun f => pyEndsWith f ".tf") with _ | ⟨a, l⟩
      · rw [hq] at hmem
        cases hmem
      · rfl
    unfold validate_terraform_directory
    simp [hne, hdt]

/-- Witness for C8 at concrete directories: `["README.md"]` has no `.tf`
file and fails; `["main.tf"]` without `.terraform` hits the init error. -/
theorem validate_terraform_directory_errors_witness :
    validate_terraform_directory ⟨"/w", ["README.md"], true⟩ =
      .error ("No .tf files found in " ++ "/w" ++ ". " ++
        "Please run this command from a directory containing Terraform files " ++
        "or specify --working-dir") ∧
    validate_terraform_directory ⟨"/w", ["main.tf"], false⟩ =
      .error "Terraform not initialized. Please run 'terraform init' first." :=
  ⟨(validate_terraform_directory_errors ⟨"/w", ["README.md"], true⟩).1 (by decide),
   (validate_terraform_directory_errors ⟨"/w", ["main.tf"], false⟩).2
     ⟨"main.tf", by decide, by decide⟩ rfl⟩

/-! ## C5: `get_show_output` error behaviour -/

/-- C5 counterexample: in a directory with no `.tf` files,
`get_show_output` raises a usage error even though the subprocess exited 0
and its stdout parses as JSON — refuting the claimed "if and only if" —
and on the valid JSON document `null` (clean exit, valid directory) the
summary block's `"values" in output` raises an uncaught `TypeError`, so
the parsed document is not returned either. -/
theorem get_show_output_error_despite_ok_subprocess :
    isUsageError (get_show_output ⟨"/w", [], true⟩ ⟨0, "{}", ""⟩
        (fun _ => some (Json.obj []))) = true ∧
    ¬(isUsageError (get_show_output ⟨"/w", [], true⟩ ⟨0, "{}", ""⟩
          (fun _ => some (Json.obj []))) = true ↔
        ((0 : Int) ≠ 0 ∨
          ((fun _ : String => some (Json.obj [])) "{}").isNone = true)) ∧
    get_show_output ⟨"/w", ["main.tf"], true⟩ ⟨0, "null", ""⟩
        (fun _ => some Json.null) =
      .error (.uncaught "TypeError") :=
  ⟨rfl, by decide, rfl⟩

/-- C5 (amended): provided directory validation passes, `get_show_output`
raises a `click.UsageError` iff the subprocess exited non-zero or its
stdout fails to parse as JSON; on non-zero exit the message carries the
subprocess stderr and on a parse failure a 200-character stdout snippet.
On valid JSON the parsed document is returned provided the
resource-summary traversal completes; when that traversal hits a
dynamic-type error (e.g. on the document `null`) the exception escapes
uncaught — it is not a usage error — and the document is not returned. -/
theorem get_show_output_amended (d : DirState) (proc : ProcResult)
    (jsonLoads : String → Option Json)
    (hv : validate_terraform_directory d = .ok ()) :
    (isUsageError (get_show_output d proc jsonLoads) = true ↔
      (proc.returncode ≠ 0 ∨ (jsonLoads proc.stdout).isNone = true)) ∧
    (proc.returncode ≠ 0 →
      get_show_output d proc jsonLoads =
        .error (.usage ("terraform show failed:\n" ++ proc.stderr))) ∧
    (proc.returncode = 0 → jsonLoads proc.stdout = none →
      get_show_output d proc jsonLoads =
        .error (.usage ("Failed to parse terraform show output as JSON. " ++
          "Output: " ++ proc.stdout.take 200 ++ "..."))) ∧
    (∀ j, proc.returncode = 0 → jsonLoads proc.stdout = some j →
      (summaryWalk (proc.stdout.length + 1) j = .ok () →
        get_show_output d proc jsonLoads = .ok j) ∧
      (∀ m, summaryWalk (proc.stdout.length + 1) j = .error m →
        get_show_output d proc jsonLoads = .error (.uncaught m))) := by
  unfold get_show_output
  rw [hv]
  by_cases hrc : proc.returncode = 0
  · rcases hj : jsonLoads proc.stdout with _ | j
    · simp [hrc, hj, isUsageError]
    · rcases hw : summaryWalk (proc.stdout.length + 1) j with m | u
      · simp [hrc, hj, hw, isUsageError]
      · cases u
        simp [hrc, hj, hw, isUsageError]
  · simp [hrc, isUsageError]

/-- Witness for C5 (amended) at concrete inputs: a non-zero exit surfaces
the subprocess stderr, and a well-shaped document is returned after the
summary traversal completes. -/
theorem get_show_output_amended_witness :
    get_show_output ⟨"/w", ["main.tf"], true⟩ ⟨1, "", "boom"⟩ (fun _ => none) =
      .error (.usage ("terraform show failed:\n" ++ "boom")) ∧
    get_show_output ⟨"/w", ["main.tf"], true⟩ ⟨0, "doc", ""⟩
        (fun _ => some (Json.obj [("values", Json.obj [("root_module",
          Json.obj [("resources", Json.arr []),
            ("child_modules", Json.arr [])])])])) =
      .ok (Json.obj [("values", Json.obj [("root_module",
        Json.obj [("resources", Json.arr []),
          ("child_modules", Json.arr [])])])]) :=
  ⟨(get_show_output_amended ⟨"/w", ["main.tf"], true⟩ ⟨1, "", "boom"⟩
      (fun _ => none) (by decide)).2.1 (by decide),
   ((get_show_output_amended ⟨"/w", ["main.tf"], true⟩ ⟨0, "doc", ""⟩
      (fun _ => some (Json.obj [("values", Json.obj [("root_module",
        Json.obj [("resources", Json.arr []),
          ("child_modules", Json.arr [])])])])) (by decide)).2.2.2
      (Json.obj [("values", Json.obj [("root_module",
        Json.obj [("resources", Json.arr []),
          ("child_modules", Json.arr [])])])])
      rfl rfl).1 rfl⟩

/-! ## C6: `load_config` search order -/

/-- C6 counterexample: with an explicit-but-nonexistent path, `load_config`
returns the empty configuration and never falls back to the default search
locations, even though the first default location exists and parses. -/
theorem load_config_explicit_missing_no_fallback :
    load_config "/h" (fun p => p == "/h/.config/cased/config.yml")
        (fun _ => some { project := some "cp" }) (some "/missing") =
      .ok Config.empty ∧
    load_config "/h" (fun p => p == "/h/.config/cased/config.yml")
        (fun _ => some { project := some "cp" }) none =
      .ok { project := some "cp" } ∧
    Config.empty ≠ ({ project := some "cp" } : Config) := by
  refine ⟨by decide, by decide, by decide⟩

/-- C6 (amended): an explicit path short-circuits the search — it alone is
consulted (missing explicit path yields the empty configuration, a parse
failure is a usage error); only when no explicit path is given are the three
default locations searched in order, with the first existing one used, the
empty configuration returned when none exists, and a parse failure of the
chosen file a usage error. -/
theorem load_config_amended (home : String) (fsExists : String → Bool)
    (fsParse : String → Option Config) :
    (∀ p, truthy (some p) = true → fsExists p = false →
      load_config home fsExists fsParse (some p) = .ok Config.empty) ∧
    (∀ p c, truthy (some p) = true → fsExists p = true → fsParse p = some c →
      load_config home fsExists fsParse (some p) = .ok c) ∧
    (∀ p, truthy (some p) = true → fsExists p = true → fsParse p = none →
      load_config home fsExists fsParse (some p) =
        .error "Failed to load config file") ∧
    ((∀ l ∈ default_locations home, fsExists l = false) →
      load_config home fsExists fsParse none = .ok Config.empty) ∧
    (∀ p c, (default_locations home).find? fsExists = some p → fsParse p = some c →
      load_config home fsExists fsParse none = .ok c) ∧
    (∀ p, (default_locations home).find? fsExists = some p → fsParse p = none →
      load_config home fsExists fsParse none =
        .error "Failed to load config file") := by
  refine ⟨?_, ?_, ?_, ?_, ?_, ?_⟩
  · intro p hp hex
    unfold load_config
    simp [hp, hex]
  · intro p c hp hex hpar
    unfold load_config
    simp [hp, hex, hpar]
  · intro p hp hex hpar
    unfold load_config
    simp [hp, hex, hpar]
  · intro h
    have hfind : (default_locations home).find? fsExists = none := by
      refine List.find?_eq_none.mpr ?_
      intro l hl
      simp [h l hl]
    unfold load_config
    simp [truthy, hfind]
  · intro p c hfind hpar
    have hex : fsExists p = true := List.find?_some hfind
    unfold load_config
    simp [truthy, hfind, hex, hpar]
  · intro p hfind hpar
    have hex : fsExists p = true := List.find?_some hfind
    unfold load_config
    simp [truthy, hfind, hex, hpar]

/-- Witness for C6 (amended) at concrete inputs: explicit existing path is
parsed; with no explicit path and no existing default, the configuration is
empty. -/
theorem load_config_amended_witness :
    load_config "/h" (fun p => p == "/etc/c.yml")
        (fun _ => some { environment := some "prod" }) (some "/etc/c.yml") =
      .ok { environment := some "prod" } ∧
    load_config "/h" (fun _ => false) (fun _ => none) none = .ok Config.empty :=
  ⟨(load_config_amended "/h" (fun p => p == "/etc/c.yml")
      (fun _ => some { environment := some "prod" })).2.1 "/etc/c.yml"
      { environment := some "prod" } (by decide) (by decide) rfl,
   (load_config_amended "/h" (fun _ => false) (fun _ => none)).2.2.2.1
      (by intro l _; rfl)⟩

theorem ne_of_data_getElem {s t : String} (i : Nat) (h : s.data[i]? ≠ t.data[i]?) :
    s ≠ t :=
  fun e => h (by rw [e])

/-! ## Line-shape lemmas for the printer -/

theorem bulletLine_head (r : Resource) : (bulletLine r).data.head? = some 'â' := by
  unfold bulletLine
  rw [data_head_append _ _ (by decide)]
  decide

theorem typeLine_head (r : Resource) : (typeLine r).data.head? = some ' ' := by
  unfold typeLine
  rw [data_head_append _ _ (by decide)]
  decide

theorem statusLine_head (r : Resource) : (statusLine r).data.head? = some ' ' := by
  unfold statusLine
  rw [data_head_append _ _ (by decide)]
  decide

theorem changeLine_head (change : Change) : (changeLine change).data.head? = some ' ' := by
  unfold changeLine
  rw [data_head_append _ _ (by decide)]
  decide

theorem typeLine_getElem2 (r : Resource) : (typeLine r).data[2]? = some 'T' := by
  unfold typeLine
  rw [data_getElem_append _ _ 2 (by decide)]
  decide

theorem statusLine_getElem2 (r : Resource) : (statusLine r).data[2]? = some 'S' := by
  unfold statusLine
  rw [data_getElem_append _ _ 2 (by decide)]
  decide

theorem managed_block_no_newline (r : Resource) :
    ∀ l ∈ printManagedResource r, l.data.head? ≠ some '\n' := by
  intro l hl
  unfold printManagedResource at hl
  by_cases hd : r.drift.isEmpty
  · simp [hd] at hl
    rcases hl with rfl | rfl | rfl | rfl
    · rw [bulletLine_head]
      decide
    · rw [typeLine_head]
      decide
    · rw [statusLine_head]
      decide
    · decide
  · simp [hd] at hl
    rcases hl with rfl | rfl | rfl | rfl | ⟨c, _, rfl⟩ | rfl
    · rw [bulletLine_head]
      decide
    · rw [typeLine_head]
      decide
    · rw [statusLine_head]
      decide
    · decide
    · rw [changeLine_head]
      decide
    · decide

theorem unmanaged_block_no_newline (r : Resource) :
    ∀ l ∈ printUnmanagedResource r, l.data.head? ≠ some '\n' := by
  intro l hl
  unfold printUnmanagedResource at hl
  simp at hl
  rcases hl with rfl | rfl | rfl
  · rw [bulletLine_head]
    decide
  · rw [typeLine_head]
    decide
  · decide

theorem missing_block_no_newline (r : Resource) :
    ∀ l ∈ printMissingResource r, l.data.head? ≠ some '\n' := by
  intro l hl
  unfold printMissingResource at hl
  simp at hl
  rcases hl with rfl | rfl | rfl
  · rw [bulletLine_head]
    decide
  · rw [typeLine_head]
    decide
  · decide

theorem no_newline_not_mem_managed_blocks {t : String}
    (ht : t.data.head? = some '\n') (rs : List Resource) :
    t ∉ rs.flatMap printManagedResource := by
  intro hmem
  rcases List.mem_flatMap.mp hmem with ⟨r, _, hr⟩
  exact managed_block_no_newline r t hr ht

theorem no_newline_not_mem_unmanaged_blocks {t : String}
    (ht : t.data.head? = some '\n') (rs : List Resource) :
    t ∉ rs.flatMap printUnmanagedResource := by
  intro hmem
  rcases List.mem_flatMap.mp hmem with ⟨r, _, hr⟩
  exact unmanaged_block_no_newline r t hr ht

theorem no_newline_not_mem_missing_blocks {t : String}
    (ht : t.data.head? = some '\n') (rs : List Resource) :
    t ∉ rs.flatMap printMissingResource := by
  intro hmem
  rcases List.mem_flatMap.mp hmem with ⟨r, _, hr⟩
  exact missing_block_no_newline r t hr ht

theorem newline_mem_managedSection {t : String} (ht : t.data.head? = some '\n')
    (report : Report) (hmem : t ∈ managedSection report) :
    t = managedHeader ∧ report.managed_resources.getD [] ≠ [] := by
  unfold managedSection at hmem
  by_cases hm : (report.managed_resources.getD []).isEmpty
  · simp [hm] at hmem
  · simp [hm] at hmem
    rcases hmem with rfl | ⟨r, _, hr⟩
    · exact ⟨rfl, by simpa using hm⟩
    · exact absurd ht (managed_block_no_newline r _ hr)

theorem newline_mem_unmanagedSection {t : String} (ht : t.data.head? = some '\n')
    (report : Report) (hmem : t ∈ unmanagedSection report) :
    t = unmanagedHeader ∧ report.unmanaged_resources.getD [] ≠ [] := by
  unfold unmanagedSection at hmem
  by_cases hm : (report.unmanaged_resources.getD []).isEmpty
  · simp [hm] at hmem
  · simp [hm] at hmem
    rcases hmem with rfl | ⟨r, _, hr⟩
    · exact ⟨rfl, by simpa using hm⟩
    · exact absurd ht (unmanaged_block_no_newline r _ hr)

theorem newline_mem_missingSection {t : String} (ht : t.data.head? = some '\n')
    (report : Report) (hmem : t ∈ missingSection report) :
    t = missingHeader ∧ report.missing_resources.getD [] ≠ [] := by
  unfold missingSection at hmem
  by_cases hm : (report.missing_resources.getD []).isEmpty
  · simp [hm] at hmem
  · simp [hm] at hmem
    rcases hmem with rfl | ⟨r, _, hr⟩
    · exact ⟨rfl, by simpa using hm⟩
    · exact absurd ht (missing_block_no_newline r _ hr)

/-! ## C2: all-empty report output -/

/-- C2 counterexample: for the report whose three bucket keys are present
and empty, the printer outputs the report heading *and* the success line —
two lines, not "exactly one success line and nothing else". -/
theorem print_report_empty_buckets_two_lines :
    print_drift_report
        { managed_resources := some [], unmanaged_resources := some [],
          missing_resources := some [], has_other_keys := false } =
      [reportHeader, successLine] ∧
    (print_drift_report
        { managed_resources := some [], unmanaged_resources := some [],
          missing_resources := some [], has_other_keys := false }).length ≠ 1 :=
  ⟨by decide, by decide⟩

/-- C2 (amended): for every report whose three bucket keys are present and
empty, `print_drift_report` outputs exactly the report heading followed by
the success line, and nothing else. -/
theorem print_report_empty_buckets_amended (o : Bool) :
    print_drift_report
        { managed_resources := some [], unmanaged_resources := some [],
          missing_resources := some [], has_other_keys := o } =
      [reportHeader, successLine] := by
  cases o <;> decide

/-! ## C10: absent bucket keys are treated as empty -/

/-- C10: a non-empty report with no bucket keys prints the heading and the
success line; an absent bucket never produces its labeled section heading. -/
theorem print_report_missing_keys_defaulted :
    print_drift_report { has_other_keys := true } = [reportHeader, successLine] ∧
    (∀ report : Report, report.managed_resources = none →
      managedHeader ∉ print_drift_report report) ∧
    (∀ report : Report, report.unmanaged_resources = none →
      unmanagedHeader ∉ print_drift_report report) ∧
    (∀ report : Report, report.missing_resources = none →
      missingHeader ∉ print_drift_report report) := by
  refine ⟨by decide, ?_, ?_, ?_⟩
  · intro report h hmem
    unfold print_drift_report at hmem
    by_cases hf : report.isFalsy
    · simp [hf] at hmem
    · simp [hf] at hmem
      rcases hmem with hm | hmem
      · exact absurd hm (by decide)
      · by_cases ha : allResources report = []
        · simp [ha] at hmem
          exact absurd hmem (by decide)
        · simp [ha] at hmem
          rcases hmem with hmem | hmem | hmem
          · exact (newline_mem_managedSection (by decide) report hmem).2 (by simp [h])
          · exact absurd (newline_mem_unmanagedSection (by decide) report hmem).1
              (by decide)
          · exact absurd (newline_mem_missingSection (by decide) report hmem).1
              (by decide)
  · intro report h hmem
    unfold print_drift_report at hmem
    by_cases hf : report.isFalsy
    · simp [hf] at hmem
    · simp [hf] at hmem
      rcases hmem with hm | hmem
      · exact absurd hm (by decide)
      · by_cases ha : allResources report = []
        · simp [ha] at hmem
          exact absurd hmem (by decide)
        · simp [ha] at hmem
          rcases hmem with hmem | hmem | hmem
          · exact absurd (newline_mem_managedSection (by decide) report hmem).1
              (by decide)
          · exact (newline_mem_unmanagedSection (by decide) report hmem).2 (by simp [h])
          · exact absurd (newline_mem_missingSection (by decide) report hmem).1
              (by decide)
  · intro report h hmem
    unfold print_drift_report at hmem
    by_cases hf : report.isFalsy
    · simp [hf] at hmem
    · simp [hf] at hmem
      rcases hmem with hm | hmem
      · exact absurd hm (by decide)
      · by_cases ha : allResources report = []
        · simp [ha] at hmem
          exact absurd hmem (by decide)
        · simp [ha] at hmem
          rcases hmem with hmem | hmem | hmem
          · exact absurd (newline_mem_managedSection (by decide) report hmem).1
              (by decide)
          · exact absurd (newline_mem_unmanagedSection (by decide) report hmem).1
              (by decide)
          · exact (newline_mem_missingSection (by decide) report hmem).2 (by simp [h])

/-- Witness for C10 at a concrete input: a report carrying only unrelated
keys prints the heading and the success line; a report with only an
unmanaged bucket never shows the managed heading. -/
theorem print_report_missing_keys_defaulted_witness :
    print_drift_report { has_other_keys := true } = [reportHeader, successLine] ∧
    managedHeader ∉ print_drift_report
      { unmanaged_resources := some [⟨"s3", "aws_s3_bucket", "b", "b-1", "unmanaged", []⟩] } :=
  ⟨(print_report_missing_keys_defaulted).1,
   (print_report_missing_keys_defaulted).2.1
     { unmanaged_resources := some [⟨"s3", "aws_s3_bucket", "b", "b-1", "unmanaged", []⟩] }
     rfl⟩

/-! ## C3: the "Changes:" block for managed resources -/

theorem block_of_nil_drift (r : Resource) (hnil : r.drift = []) :
    printManagedResource r = [bulletLine r, typeLine r, statusLine r, ""] := by
  unfold printManagedResource
  rw [hnil]
  rfl

theorem changes_mem_block (r : Resource) :
    "  Changes:" ∈ printManagedResource r ↔ r.drift ≠ [] := by
  constructor
  · intro hmem hnil
    rw [block_of_nil_drift r hnil] at hmem
    simp only [List.mem_cons, List.not_mem_nil, or_false] at hmem
    rcases hmem with h | h | h | h
    · exact (ne_of_data_head (by rw [bulletLine_head]; decide)) h
    · exact (ne_of_data_getElem 2 (by rw [typeLine_getElem2]; decide)) h
    · exact (ne_of_data_getElem 2 (by rw [statusLine_getElem2]; decide)) h
    · exact absurd h (by decide)
  · intro hne
    unfold printManagedResource
    have hd : r.drift.isEmpty = false := by simpa using hne
    simp [hd]

theorem bullet_not_mem_block_tail (r : Resource) :
    bulletLine r ∉ typeLine r :: statusLine r ::
      ((if r.drift.isEmpty then [] else "  Changes:" :: r.drift.map changeLine) ++
        [""]) := by
  intro hmem
  by_cases hd : r.drift.isEmpty
  · simp [hd] at hmem
    rcases hmem with h | h | h
    · exact (ne_of_data_head (by rw [bulletLine_head, typeLine_head]; decide)) h
    · exact (ne_of_data_head (by rw [bulletLine_head, statusLine_head]; decide)) h
    · exact (ne_of_data_head (by rw [bulletLine_head]; decide)) h
  · simp [hd] at hmem
    rcases hmem with h | h | h | ⟨c, _, h⟩ | h
    · exact (ne_of_data_head (by rw [bulletLine_head, typeLine_head]; decide)) h
    · exact (ne_of_data_head (by rw [bulletLine_head, statusLine_head]; decide)) h
    · exact (ne_of_data_head (by rw [bulletLine_head]; decide)) h
    · exact (ne_of_data_head (by rw [bulletLine_head, changeLine_head]; decide)) h.symm
    · exact (ne_of_data_head (by rw [bulletLine_head]; decide)) h

theorem bullet_count_block (r : Resource) :
    (printManagedResource r).count (bulletLine r) = 1 := by
  unfold printManagedResource
  rw [List.count_cons_self]
  rw [List.count_eq_zero.mpr (bullet_not_mem_block_tail r)]

theorem singleton_managed_output (r : Resource) (o : Bool) :
    print_drift_report
        { managed_resources := some [r], unmanaged_resources := some [],
          missing_resources := some [], has_other_keys := o } =
      reportHeader :: managedHeader :: printManagedResource r := by
  unfold print_drift_report Report.isFalsy allResources managedSection
    unmanagedSection missingSection
  simp

/-- C3 counterexample: a managed record with status `"pending"` and an empty
drift sequence produces no "Changes:" line, refuting the claimed
"status is not synced or drift non-empty" condition. -/
theorem managed_changes_block_status_only :
    "  Changes:" ∉ print_drift_report
      { managed_resources := some [⟨"ec2", "aws_instance", "web", "i-1", "pending", []⟩],
        unmanaged_resources := some [], missing_resources := some [],
        has_other_keys := false } ∧
    ¬(("  Changes:" ∈ print_drift_report
        { managed_resources := some [⟨"ec2", "aws_instance", "web", "i-1", "pending", []⟩],
          unmanaged_resources := some [], missing_resources := some [],
          has_other_keys := false }) ↔
      ("pending" ≠ "synced" ∨ ([] : List Change) ≠ [])) :=
  ⟨by decide, by decide⟩

/-- C3 (amended): for a report with one managed record, the "Changes:" line
is rendered iff the record's drift sequence is non-empty (the status plays
no role); the record's bullet line (service/name/id) appears exactly once;
and every drift entry yields its field/expected/actual line. -/
theorem managed_changes_block_amended (r : Resource) (o : Bool) :
    (("  Changes:" ∈ print_drift_report
        { managed_resources := some [r], unmanaged_resources := some [],
          missing_resources := some [], has_other_keys := o }) ↔ r.drift ≠ []) ∧
    (print_drift_report
        { managed_resources := some [r], unmanaged_resources := some [],
          missing_resources := some [], has_other_keys := o }).count (bulletLine r) = 1 ∧
    (∀ c ∈ r.drift, changeLine c ∈ print_drift_report
        { managed_resources := some [r], unmanaged_resources := some [],
          missing_resources := some [], has_other_keys := o }) := by
  rw [singleton_managed_output r o]
  refine ⟨?_, ?_, ?_⟩
  · rw [show ("  Changes:" ∈ reportHeader :: managedHeader :: printManagedResource r) ↔
        "  Changes:" ∈ printManagedResource r by
      simp [show "  Changes:" ≠ reportHeader by decide,
        show "  Changes:" ≠ managedHeader by decide]]
    exact changes_mem_block r
  · rw [List.count_cons_of_ne, List.count_cons_of_ne]
    · exact bullet_count_block r
    · exact ne_of_data_head (by rw [bulletLine_head]; decide)
    · exact ne_of_data_head (by rw [bulletLine_head]; decide)
  · intro c hc
    have hd : r.drift.isEmpty = false := by
      rcases hq : r.drift with _ | _
      · rw [hq] at hc
        cases hc
      · rfl
    refine List.mem_cons_of_mem _ (List.mem_cons_of_mem _ ?_)
    unfold printManagedResource
    refine List.mem_cons_of_mem _ (List.mem_cons_of_mem _ (List.mem_cons_of_mem _ ?_))
    rw [if_neg (by simp [hd])]
    exact List.mem_append_left _ (List.mem_cons_of_mem _ (List.mem_map_of_mem _ hc))

/-- Witness for C3 (amended) at a concrete input: a drifted record renders
its change line; a synced drift-free record renders no "Changes:" line and
its bullet exactly once. -/
theorem managed_changes_block_amended_witness :
    changeLine ⟨"instance_type", "t2.micro", "t2.large"⟩ ∈ print_drift_report
      { managed_resources :=
          some [⟨"ec2", "aws_instance", "web", "i-1", "drifted",
            [⟨"instance_type", "t2.micro", "t2.large"⟩]⟩],
        unmanaged_resources := some [], missing_resources := some [],
        has_other_keys := false } ∧
    (print_drift_report
      { managed_resources := some [⟨"ec2", "aws_instance", "web", "i-1", "synced", []⟩],
        unmanaged_resources := some [], missing_resources := some [],
        has_other_keys := false }).count
      (bulletLine ⟨"ec2", "aws_instance", "web", "i-1", "synced", []⟩) = 1 :=
  ⟨(managed_changes_block_amended
      ⟨"ec2", "aws_instance", "web", "i-1", "drifted",
        [⟨"instance_type", "t2.micro", "t2.large"⟩]⟩ false).2.2
      ⟨"instance_type", "t2.micro", "t2.large"⟩ (by decide),
   (managed_changes_block_amended
      ⟨"ec2", "aws_instance", "web", "i-1", "synced", []⟩ false).2.1⟩


/-! ## C1: configuration precedence in `analyze` -/

/-- C1 counterexample: with `--api-url` passed explicitly as the default URL
`https://app.cased.com` while `CASED_API_URL` and the config file carry
other values, the resolved URL is the environment value, not the flag value
— the code cannot distinguish an explicit flag equal to the default from an
absent flag. -/
theorem resolve_default_url_flag_overridden :
    resolve
        { project := some "p", environment := some "e", api_key := some "k",
          api_url := some "https://app.cased.com" }
        { cased_api_key := some "ek", cased_api_url := some "http://env.example" }
        { project := some "cp", environment := some "ce", api_key := some "ck",
          api_url := some "http://cfg.example" } =
      .ok { api_key := some "k", client_key := "k",
            api_url := "http://env.example", project := some "p",
            environment := some "e" } ∧
    "http://env.example" ≠ "https://app.cased.com" :=
  ⟨by decide, by decide⟩

/-- C1 (amended): precedence per key. `api_key`: non-empty flag wins, else
non-empty `CASED_API_KEY`, else the config value. `api_url` (with `--local`
unset): a flag differing from the default URL wins; with no flag, a
non-empty `CASED_API_URL` wins (an explicit flag equal to the default is
indistinguishable from no flag); with neither, the config value, defaulting
to the default URL. `project`/`environment` have no environment-variable
source: flag wins, else config. `resolve` returns exactly these values when
its presence checks pass. -/
theorem resolve_precedence_amended (args : CliArgs) (env : EnvVars) (cfg : Config) :
    (∀ k, args.api_key = some k → k ≠ "" →
      (resolved_values args env cfg).api_key = some k) ∧
    (∀ w, args.api_key = none → env.cased_api_key = some w → w ≠ "" →
      (resolved_values args env cfg).api_key = some w) ∧
    (args.api_key = none → env.cased_api_key = none →
      (resolved_values args env cfg).api_key = cfg.api_key) ∧
    (∀ u, args.localFlag = false → args.api_url = some u →
      u ≠ "https://app.cased.com" →
      (resolved_values args env cfg).api_url = u) ∧
    (∀ w, args.localFlag = false → args.api_url = none →
      env.cased_api_url = some w → w ≠ "" →
      (resolved_values args env cfg).api_url = w) ∧
    (args.localFlag = false → args.api_url = none → env.cased_api_url = none →
      (resolved_values args env cfg).api_url =
        cfg.api_url.getD "https://app.cased.com") ∧
    (∀ s, args.project = some s → s ≠ "" →
      (resolved_values args env cfg).project = some s) ∧
    (args.project = none →
      (resolved_values args env cfg).project = cfg.project) ∧
    (∀ s, args.environment = some s → s ≠ "" →
      (resolved_values args env cfg).environment = some s) ∧
    (args.environment = none →
      (resolved_values args env cfg).environment = cfg.environment) ∧
    (∀ r, resolve args env cfg = .ok r → r = resolved_values args env cfg) := by
  refine ⟨?_, ?_, ?_, ?_, ?_, ?_, ?_, ?_, ?_, ?_, ?_⟩
  · intro k hk hkne
    simp [resolved_values, resolve_api_key, optOr, truthy, pyOr, hk, hkne]
  · intro w hk hw hwne
    simp [resolved_values, resolve_api_key, optOr, truthy, pyOr, hk, hw, hwne]
  · intro hk he
    simp [resolved_values, resolve_api_key, optOr, truthy, pyOr, hk, he]
  · intro u hl hu hune
    simp [resolved_values, resolve_api_url, optOr, truthy, hl, hu, hune]
  · intro w hl hu hw hwne
    by_cases hdef : w = "https://app.cased.com"
    · simp [resolved_values, resolve_api_url, optOr, truthy, hl, hu, hw, hdef, hwne]
    · simp [resolved_values, resolve_api_url, optOr, truthy, hl, hu, hw, hdef, hwne]
  · intro hl hu he
    simp [resolved_values, resolve_api_url, optOr, truthy, hl, hu, he]
  · intro s hs hsne
    simp [resolved_values, pyOr, truthy, hs, hsne]
  · intro hs
    simp [resolved_values, pyOr, truthy, hs]
  · intro s hs hsne
    simp [resolved_values, pyOr, truthy, hs, hsne]
  · intro hs
    simp [resolved_values, pyOr, truthy, hs]
  · intro r hr
    simp only [resolve] at hr
    split_ifs at hr
    all_goals simp at hr
    exact hr.symm

/-- Witness for C1 (amended) at concrete inputs: the api_key flag beats env
and config; with no api_url flag the env var beats the config; with neither
flag nor env var the config api_url is used. -/
theorem resolve_precedence_amended_witness :
    (resolved_values
        { api_key := some "flagk", project := some "p", environment := some "e" }
        { cased_api_key := some "envk", cased_api_url := some "http://envu.example" }
        { api_key := some "cfgk", api_url := some "http://cfgu.example" }).api_key =
      some "flagk" ∧
    (resolved_values
        { api_key := some "flagk", project := some "p", environment := some "e" }
        { cased_api_key := some "envk", cased_api_url := some "http://envu.example" }
        { api_key := some "cfgk", api_url := some "http://cfgu.example" }).api_url =
      "http://envu.example" ∧
    (resolved_values
        { api_key := some "flagk", project := some "p", environment := some "e" }
        { cased_api_key := some "envk" }
        { api_key := some "cfgk", api_url := some "http://cfgu.example" }).api_url =
      "http://cfgu.example" :=
  ⟨(resolve_precedence_amended
      { api_key := some "flagk", project := some "p", environment := some "e" }
      { cased_api_key := some "envk", cased_api_url := some "http://envu.example" }
      { api_key := some "cfgk", api_url := some "http://cfgu.example" }).1
      "flagk" rfl (by decide),
   (resolve_precedence_amended
      { api_key := some "flagk", project := some "p", environment := some "e" }
      { cased_api_key := some "envk", cased_api_url := some "http://envu.example" }
      { api_key := some "cfgk", api_url := some "http://cfgu.example" }).2.2.2.2.1
      "http://envu.example" rfl rfl rfl (by decide),
   (resolve_precedence_amended
      { api_key := some "flagk", project := some "p", environment := some "e" }
      { cased_api_key := some "envk" }
      { api_key := some "cfgk", api_url := some "http://cfgu.example" }).2.2.2.2.2.1
      rfl rfl rfl⟩

/-! ## C7: the analysis endpoint URL -/

theorem hasSubstrL_nil_pat (l : List Char) : hasSubstrL [] l = true := by
  cases l <;> rfl

theorem isPrefixOf_append {pat l1 l2 : List Char} (h : pat.isPrefixOf l1 = true) :
    pat.isPrefixOf (l1 ++ l2) = true :=
  List.isPrefixOf_iff_prefix.mpr
    ((List.isPrefixOf_iff_prefix.mp h).trans (List.prefix_append l1 l2))

theorem hasSubstrL_append_eq_false {pat l1 l2 : List Char}
    (h : hasSubstrL pat (l1 ++ l2) = false) : hasSubstrL pat l1 = false := by
  induction l1 with
  | nil =>
    cases hpat : pat with
    | nil =>
      rw [hpat] at h
      rw [hasSubstrL_nil_pat] at h
      cases h
    | cons c cs => rfl
  | cons c tl ih =>
    rw [List.cons_append] at h
    have h' : (pat.isPrefixOf (c :: (tl ++ l2)) || hasSubstrL pat (tl ++ l2)) = false := h
    rw [Bool.or_eq_false_iff] at h'
    have goal' : (pat.isPrefixOf (c :: tl) || hasSubstrL pat tl) = false := by
      rw [Bool.or_eq_false_iff]
      refine ⟨?_, ih h'.2⟩
      cases hp : pat.isPrefixOf (c :: tl)
      · rfl
      · have := @isPrefixOf_append pat (c :: tl) l2 hp
        rw [List.cons_append] at this
        rw [this] at h'
        cases h'.1
    exact goal'

theorem removeAllF_no_occ (pat : List Char) :
    ∀ (l : List Char) (fuel : Nat), hasSubstrL pat l = false →
      removeAllF pat fuel l = l := by
  intro l
  induction l with
  | nil => intro fuel _; cases fuel <;> rfl
  | cons c rest ih =>
    intro fuel hno
    have h' : (pat.isPrefixOf (c :: rest) || hasSubstrL pat rest) = false := hno
    rw [Bool.or_eq_false_iff] at h'
    cases fuel with
    | zero => rfl
    | succ f =>
      show (if pat ≠ [] ∧ pat.isPrefixOf (c :: rest) then
          removeAllF pat f (rest.drop (pat.length - 1))
        else c :: removeAllF pat f rest) = c :: rest
      rw [if_neg (by simp [h'.1])]
      rw [ih f h'.2]

theorem stripSegF_no_occ :
    ∀ (l : List Char) (fuel : Nat), hasSubstrL "/api/v1".data l = false →
      stripSegF fuel l = l := by
  intro l
  induction l with
  | nil => intro fuel _; cases fuel <;> rfl
  | cons c rest ih =>
    intro fuel hno
    have h' : ("/api/v1".data.isPrefixOf (c :: rest) ||
        hasSubstrL "/api/v1".data rest) = false := hno
    rw [Bool.or_eq_false_iff] at h'
    cases fuel with
    | zero => rfl
    | succ f =>
      show (if "/api/v1".data.isPrefixOf (c :: rest) ∧
            (rest.drop 6 = [] ∨ (rest.drop 6).head? = some '/') then
          stripSegF f (rest.drop 6)
        else c :: stripSegF f rest) = c :: rest
      rw [if_neg (by simp [h'.1])]
      rw [ih f h'.2]

theorem rstripSlashesL_leading (l : List Char) : ∃ suf, rstripSlashesL l ++ suf = l := by
  unfold rstripSlashesL
  have h1 : l.reverse.dropWhile (fun c => c == '/') <:+ l.reverse :=
    List.dropWhile_suffix _
  have h2 := List.reverse_prefix.mpr h1
  rw [List.reverse_reverse] at h2
  exact h2

/-- C7 counterexample: for base URL `https://x.com/api/v10` — which contains
no `/api/v1` *path segment* — the code removes the substring `/api/v1`
anyway (python `str.replace`), targeting `https://x.com0/...` instead of
the spec-described segment-stripped URL. -/
theorem target_url_segment_vs_substring :
    requestUrl ((CasedAPI.make "k" "https://x.com/api/v10").analyze_terraform "p" "e"
        Json.null false (fun _ => "") (fun _ => Report.emptyDict)) =
      some "https://x.com0/api/v1/projects/p/infra/local" ∧
    specTargetUrl "https://x.com/api/v10" "p" =
      "https://x.com/api/v10/api/v1/projects/p/infra/local" ∧
    requestUrl ((CasedAPI.make "k" "https://x.com/api/v10").analyze_terraform "p" "e"
        Json.null false (fun _ => "") (fun _ => Report.emptyDict)) ≠
      some (specTargetUrl "https://x.com/api/v10" "p") :=
  ⟨by decide, by decide, by decide⟩

/-- C7 (amended): the target URL appends
`/api/v1/projects/{project}/infra/local` to the base URL after stripping
trailing slashes and then removing every occurrence of the *substring*
`/api/v1` (python `str.replace`, not path-segment aware); whenever the base
URL contains no `/api/v1` occurrence at all, this coincides with the
spec-described segment-stripping behaviour. -/
theorem target_url_amended (key base_url project environment : String)
    (show_output : Json) (dumps : Json → String) (httpPost : HttpPost → Report) :
    requestUrl ((CasedAPI.make key base_url).analyze_terraform project environment
        show_output false dumps httpPost) =
      some (String.mk (removeAll "/api/v1".data (rstripSlashesL base_url.data)) ++
        "/api/v1/projects/" ++ project ++ "/infra/local") ∧
    (hasSubstrL "/api/v1".data base_url.data = false →
      requestUrl ((CasedAPI.make key base_url).analyze_terraform project environment
        show_output false dumps httpPost) = some (specTargetUrl base_url project)) := by
  constructor
  · rfl
  · intro hno
    rcases rstripSlashesL_leading base_url.data with ⟨suf, hsuf⟩
    have hno1 : hasSubstrL "/api/v1".data (rstripSlashesL base_url.data) = false := by
      refine @hasSubstrL_append_eq_false _ _ suf ?_
      rw [hsuf]
      exact hno
    have hcode : removeAll "/api/v1".data (rstripSlashesL base_url.data) =
        rstripSlashesL base_url.data :=
      removeAllF_no_occ _ _ _ hno1
    have hspec : stripApiV1Segment base_url.data = base_url.data :=
      stripSegF_no_occ _ _ hno
    calc requestUrl ((CasedAPI.make key base_url).analyze_terraform project
            environment show_output false dumps httpPost)
        = some (String.mk (removeAll "/api/v1".data (rstripSlashesL base_url.data)) ++
            "/api/v1/projects/" ++ project ++ "/infra/local") := rfl
      _ = some (String.mk (rstripSlashesL base_url.data) ++
            "/api/v1/projects/" ++ project ++ "/infra/local") := by rw [hcode]
      _ = some (specTargetUrl base_url project) := by
            unfold specTargetUrl
            rw [hspec]

/-- Witness for C7 (amended) at a concrete input: the default base URL has
no `/api/v1` occurrence, so code and spec URLs coincide. -/
theorem target_url_amended_witness :
    requestUrl ((CasedAPI.make "k" "https://app.cased.com").analyze_terraform "acme"
        "prod" Json.null false (fun _ => "") (fun _ => Report.emptyDict)) =
      some (specTargetUrl "https://app.cased.com" "acme") :=
  (target_url_amended "k" "https://app.cased.com" "acme" "prod" Json.null
    (fun _ => "") (fun _ => Report.emptyDict)).2 (by decide)

/-! ## C9: dry-run output is independent of the API key -/

/-- C9: in dry-run mode the echoed lines, the absence of any HTTP POST, and
the returned result of `analyze_terraform` are identical for any two API
keys (including the `dry-run-key` placeholder), the Authorization header is
printed as the redacted constant, and any key that does not occur in the
key-independent output does not occur in the output produced with that key
— the key value never reaches the output. -/
theorem dry_run_key_independence (k1 k2 base_url project environment : String)
    (show_output : Json) (dumps : Json → String) (httpPost : HttpPost → Report) :
    (CasedAPI.make k1 base_url).analyze_terraform project environment show_output
        true dumps httpPost =
      (CasedAPI.make k2 base_url).analyze_terraform project environment show_output
        true dumps httpPost ∧
    "  Authorization: Bearer [REDACTED]" ∈
      ((CasedAPI.make k1 base_url).analyze_terraform project environment show_output
        true dumps httpPost).1 ∧
    ((CasedAPI.make k1 base_url).analyze_terraform project environment show_output
        true dumps httpPost).2.1 = none ∧
    ((∀ l ∈ ((CasedAPI.make "dry-run-key" base_url).analyze_terraform project
        environment show_output true dumps httpPost).1,
        hasSubstrL k1.data l.data = false) →
      ∀ l ∈ ((CasedAPI.make k1 base_url).analyze_terraform project environment
        show_output true dumps httpPost).1,
        hasSubstrL k1.data l.data = false) := by
  refine ⟨rfl, ?_, rfl, ?_⟩
  · exact List.mem_cons_of_mem _ (List.mem_cons_of_mem _ (List.mem_cons_of_mem _
      (List.mem_cons_self _ _)))
  · intro h l hl
    exact h l hl

/-- Witness for C9 at a concrete input: a secret key does not occur in any
dry-run output line. -/
theorem dry_run_key_independence_witness :
    hasSubstrL "sk-secret-123".data
      ("URL: https://x.example/api/v1/projects/acme/infra/local").data = false :=
  (dry_run_key_independence "sk-secret-123" "other" "https://x.example" "acme"
      "staging" Json.null (fun _ => "payload") (fun _ => Report.emptyDict)).2.2.2
    (by decide)
    "URL: https://x.example/api/v1/projects/acme/infra/local" (by decide)

end CasedTf
